import Mathlib

/-!
Verification development for the ROS2Connector plugin of the NanoLLM repository
(src/nano_llm/plugins/robotics/ros_connector.py).

The plugin consumes JSON commands (the pydantic `ROSMessage` schema), resolves a
ROS message type from a three-segment identifier, and routes each command in
`ROS2Connector.process` to publisher / subscriber / service-client /
action-client handling, maintaining per-kind dictionaries (`pubs`, `subs`,
`service_clients`, `action_clients`) plus name-keyed dictionaries of loggers,
timers, callback groups and goal handles.

The embedding below models the Python code faithfully, statement by statement:

* Python dictionaries become association lists / presence lists over `String`;
* raised exceptions (`AttributeError`, `KeyError`, `TypeError`, `ValueError`,
  `AssertionError`, `NameError`) become an explicit error component that is
  threaded together with the (already performed) state mutations, matching
  Python semantics where mutations made before a raise persist;
* external libraries (rclpy node/publisher creation, importlib module loading,
  the rosidl codec) are modelled as succeeding, with the data the connector
  actually branches on (presence in its dictionaries, the third segment of the
  type identifier, payload string-vs-dict shape) modelled exactly;
* pydantic validation of the `ROSMessage` schema is modelled field by field:
  `node_type` must be one of the four kind strings, `timer_period` defaults to
  0 and must be nonnegative, `msg` must be a JSON object (a dict -- a plain
  string such as "destroy" is rejected), and `ros_log`, when omitted, takes the
  schema's *unvalidated* default value, the empty string.
-/

namespace RosConnector

/-- Python-like values appearing in the `msg` payload field of a command:
either a JSON string or a JSON object (dict).  The connector only ever
branches on the string-vs-dict shape of the payload (the payload content is
handed to the external rosidl codec), so dict entries are modelled with
string leaves. -/
inductive PyVal where
  | str (s : String)
  | dict (entries : List (String × String))
deriving DecidableEq, Repr

/-- Python exceptions raised by the modelled code.  `blocked` is not a Python
exception: it marks a readiness-wait loop that has not yet returned after all
modelled wait attempts (the loop blocks until a wait attempt succeeds). -/
inductive PyErr where
  | attributeError (text : String)
  | keyError (key : String)
  | typeError (text : String)
  | valueError (text : String)
  | assertionError
  | nameError (text : String)
  | blocked
deriving DecidableEq, Repr

/-- Python `str.lower()` over the character list (ASCII case folding, as
`Char.toLower`). -/
def pyStrLower (s : String) : String :=
  String.mk (s.data.map Char.toLower)

/-- Python `x.lower()` on a payload value: succeeds on strings; a dict has no
`lower` method, so it raises `AttributeError`. -/
def pyLower : PyVal → Except PyErr String
  | PyVal.str s => Except.ok (pyStrLower s)
  | PyVal.dict _ => Except.error (PyErr.attributeError "dict object has no attribute lower")

/-- Python `s.split('/')` over the character list: splits at every '/'
(adjacent separators yield empty segments, as in Python). -/
def splitSlashChars : List Char → List (List Char)
  | [] => [[]]
  | c :: rest =>
    let r := splitSlashChars rest
    if c = '/' then [] :: r
    else
      match r with
      | [] => [[c]]
      | h :: t => (c :: h) :: t

/-- Python `s.split('/')` on strings. -/
def pySplitSlash (s : String) : List String :=
  (splitSlashChars s.data).map (fun cs => String.mk cs)

/-- The `NodeType` str-enum (ros_connector.py lines 35-42). -/
inductive NodeType where
  | publisher
  | subscriber
  | service_client
  | action_client
deriving DecidableEq, Repr

/-- The string value of each `NodeType` member (it is a `str` enum, so a member
compares equal to its value). -/
def NodeType.value : NodeType → String
  | NodeType.publisher => "publisher"
  | NodeType.subscriber => "subscriber"
  | NodeType.service_client => "service_client"
  | NodeType.action_client => "action_client"

/-- The `LogLevel` str-enum (lines 25-33). -/
inductive LogLevel where
  | DEBUG
  | INFO
  | WARN
  | ERROR
  | FATAL
deriving DecidableEq, Repr

/-- The `ROSLog` pydantic schema (lines 44-51): `name` is Optional[str] (may be
null), `level` is Optional[LogLevel] with default INFO (may be explicitly
null), `msg` is a required string. -/
structure ROSLog where
  name : Option String
  level : Option LogLevel
  msg : String
deriving DecidableEq, Repr

/-- The runtime value of the `ros_log` field of a validated `ROSMessage`.
The schema declares `ros_log: Optional[ROSLog] = Field(..., default='')`
(line 62): when the field is omitted, pydantic installs the *default* value,
the empty string, without validating it, so the field holds a `str` rather
than a `ROSLog` object. -/
inductive RosLogField where
  | defaultStr
  | roslog (l : ROSLog)
deriving DecidableEq, Repr

/-- A validated `ROSMessage` (lines 53-62).  After validation `msg` is always a
dict (`msg: dict`), though the model keeps the `PyVal` type so that attribute
accesses such as `.lower()` can be evaluated faithfully. -/
structure ROSMessage where
  node_type : NodeType
  msg_type : String
  name : String
  timer_period : ℚ
  msg : PyVal
  ros_log : RosLogField
deriving DecidableEq, Repr

/-- A raw inbound command, the parsed JSON object before schema validation.
`timer_period` and `ros_log` may be omitted (`none`). -/
structure RawCommand where
  node_type : String
  msg_type : String
  name : String
  timer_period : Option ℚ
  msg : PyVal
  ros_log : Option ROSLog
deriving DecidableEq, Repr

/-- Parse the `node_type` field against the four `NodeType` values. -/
def parseNodeType (s : String) : Option NodeType :=
  if s = "publisher" then some NodeType.publisher
  else if s = "subscriber" then some NodeType.subscriber
  else if s = "service_client" then some NodeType.service_client
  else if s = "action_client" then some NodeType.action_client
  else none

/-- Pydantic validation of a raw command against the `ROSMessage` schema:
`node_type` must be one of the four kind strings; `timer_period` defaults to 0
and must satisfy `ge=0.0`; `msg` must be a dict (a JSON string payload such as
"destroy" is rejected with a ValidationError); an omitted `ros_log` takes the
schema default `''` unvalidated. -/
def validate (raw : RawCommand) : Option ROSMessage :=
  match parseNodeType raw.node_type with
  | none => none
  | some nt =>
    if raw.timer_period.getD 0 < 0 then none
    else
      match raw.msg with
      | PyVal.str _ => none
      | PyVal.dict es =>
        some { node_type := nt, msg_type := raw.msg_type, name := raw.name,
               timer_period := raw.timer_period.getD 0, msg := PyVal.dict es,
               ros_log := match raw.ros_log with
                          | none => RosLogField.defaultStr
                          | some l => RosLogField.roslog l }

/-- `get_ros_msg_from_json` (lines 136-146): validate and cast to `ROSMessage`;
on a `ValidationError` the code logs and returns `False` (modelled as `none`).
(The handler's `self.get_logger()` also touches the never-initialized `Node`
base class; either way no `ROSMessage` is produced.) -/
def get_ros_msg_from_json (raw : RawCommand) : Option ROSMessage :=
  validate raw

/-- `get_ros_message_type` (lines 148-158): split the identifier on '/' and
unpack into exactly three names -- a different segment count raises
`ValueError` -- then import the module and return `(msg_type, msg_class)`.
The dynamic import is external and modelled as succeeding; the returned
`msg_type` is the THIRD segment of the identifier (the class name), which is
what `process` subsequently matches on. -/
def get_ros_message_type (msg : ROSMessage) : Except PyErr String :=
  match pySplitSlash msg.msg_type with
  | [_, _, ty] => Except.ok ty
  | _ => Except.error (PyErr.valueError "unpack expected 3 values")

/-- The mutable per-connector registry dictionaries initialized in `__init__`
(lines 117-126).  Publishers, subscribers, service clients, action clients,
loggers, callback groups and goal handles are presence sets of names; timers
map a name to the timer period. -/
structure ConnectorState where
  pubs : List String
  subs : List String
  service_clients : List String
  action_clients : List String
  loggers : List String
  timers_dict : List (String × ℚ)
  callback_groups : List String
  goal_handles : List String
deriving DecidableEq, Repr

/-- The state right after `__init__`: every dictionary empty. -/
def initState : ConnectorState := ⟨[], [], [], [], [], [], [], []⟩

/-- Observable effects of processing: ROS publishes, timer creation and
destruction, wait attempts of the readiness-polling loops (with their
`timeout_sec` argument), and log emissions. -/
inductive Event where
  | published (topic : String)
  | timerCreated (name : String) (period : ℚ)
  | timerDestroyed (name : String)
  | waitAttempt (timeout : ℚ)
  | logInfo (text : String)
  | logErr (text : String)
  | logInvalidNodeType (nt : NodeType)
deriving DecidableEq, Repr

/-- Dict insertion as a presence list (Python `d[k] = v`). -/
def insertName (l : List String) (n : String) : List String :=
  if l.contains n then l else l ++ [n]

/-- Overwrite the timer entry for a name (Python `timers_dict[name] = timer`). -/
def setTimer (l : List (String × ℚ)) (n : String) (p : ℚ) : List (String × ℚ) :=
  l.filter (fun x => x.1 != n) ++ [(n, p)]

/-- Result of one statement block: the (possibly mutated) registry state, the
(possibly mutated) command object, the events emitted so far, and the raised
exception, if any.  Mutations performed before a raise persist, as in Python. -/
structure PRes where
  st : ConnectorState
  msg : ROSMessage
  events : List Event
  err : Option PyErr
deriving DecidableEq, Repr

/-- Sequencing: run `f` only when no exception has been raised, accumulating
events. -/
def PRes.andThen (r : PRes) (f : ConnectorState → ROSMessage → PRes) : PRes :=
  match r.err with
  | some _ => r
  | none =>
    let r2 := f r.st r.msg
    ⟨r2.st, r2.msg, r.events ++ r2.events, r2.err⟩

/-- Prepend already-emitted events to a result. -/
def PRes.withEventsBefore (evs : List Event) (r : PRes) : PRes :=
  ⟨r.st, r.msg, evs ++ r.events, r.err⟩

/-- Python `msg.msg.lower() == s`: evaluates `.lower()` on the payload (raising
`AttributeError` when the payload is a dict) and compares with the sentinel. -/
def sentinelCheck (msg : ROSMessage) (s : String) : Except PyErr Bool :=
  match pyLower msg.msg with
  | Except.error e => Except.error e
  | Except.ok low => Except.ok (low = s)

/-- The logger-dictionary key `msg.ros_log.name`: raises `AttributeError` when
`ros_log` still holds the schema's default `''`; a `None` name is the dict key
`None`, rendered here as the string "None". -/
def effLogName (msg : ROSMessage) : Except PyErr String :=
  match msg.ros_log with
  | RosLogField.defaultStr =>
    Except.error (PyErr.attributeError "str object has no attribute name")
  | RosLogField.roslog l =>
    match l.name with
    | none => Except.ok "None"
    | some s => Except.ok s

/-- The call pattern `self.publish_log(self.loggers[msg.ros_log.name], text)`:
the dict lookup in the argument raises `AttributeError` (default `ros_log`) or
`KeyError` (logger absent) before `publish_log` runs; otherwise the message is
logged (`publish_log`, lines 269-291, catches its own failures). -/
def publishLogAt (st : ConnectorState) (msg : ROSMessage) (text : String) : PRes :=
  match effLogName msg with
  | Except.error e => ⟨st, msg, [], some e⟩
  | Except.ok lname =>
    if st.loggers.contains lname then ⟨st, msg, [Event.logInfo text], none⟩
    else ⟨st, msg, [], some (PyErr.keyError lname)⟩

/-- `create_logger` (lines 252-267).  Reads `msg.ros_log.name` (raising
`AttributeError` when `ros_log` is the default `''`), defaults an empty/None
name to `"<name>_log"` by *mutating the message*, then inside try reads
`msg.ros_log.level.upper()` (an explicit `null` level raises `AttributeError`,
caught by the handler, which logs and returns False); on success the child
logger is stored in `self.loggers` and the `ros_log.msg` text is emitted.
Returns the new state, the mutated message, whether a logger was stored, and
the events. -/
def create_logger (st : ConnectorState) (msg : ROSMessage) :
    Except PyErr (ConnectorState × ROSMessage × Bool × List Event) :=
  match msg.ros_log with
  | RosLogField.defaultStr =>
    Except.error (PyErr.attributeError "str object has no attribute name")
  | RosLogField.roslog l =>
    let lname := match l.name with
      | none => msg.name ++ "_log"
      | some s => if s = "" then msg.name ++ "_log" else s
    let msg' : ROSMessage :=
      { msg with ros_log := RosLogField.roslog ⟨some lname, l.level, l.msg⟩ }
    match l.level with
    | none =>
      Except.ok (st, msg', false, [Event.logErr "Failed to create logger"])
    | some _ =>
      Except.ok ({ st with loggers := insertName st.loggers lname }, msg', true,
                 [Event.logInfo l.msg])

/-- `create_publisher` (lines 161-183).  Asserts the node type, creates the
logger, then executes `self.callback_group[msg.name] = ...`: the attribute is
named `callback_group` while `__init__` only defines `callback_groups`, so an
`AttributeError` is raised before the try block -- the publisher is never
stored in `self.pubs` and no timer is ever created. -/
def create_publisher (st : ConnectorState) (msg : ROSMessage) : PRes :=
  if msg.node_type ≠ NodeType.publisher then ⟨st, msg, [], some PyErr.assertionError⟩
  else
    match create_logger st msg with
    | Except.error e => ⟨st, msg, [], some e⟩
    | Except.ok (st1, msg1, _, ev1) =>
      ⟨st1, msg1, ev1,
       some (PyErr.attributeError "ROS2Connector object has no attribute callback_group")⟩

/-- `create_subscriber` as defined (lines 193-210), with signature
`(self, msg)`: assert, create logger, store a callback group, resolve the
type, and register the subscription.  (The call site in `process` passes an
extra `msg_class` argument; that arity error is modelled at the call site.) -/
def create_subscriber (st : ConnectorState) (msg : ROSMessage) : PRes :=
  if msg.node_type ≠ NodeType.subscriber then ⟨st, msg, [], some PyErr.assertionError⟩
  else
    match create_logger st msg with
    | Except.error e => ⟨st, msg, [], some e⟩
    | Except.ok (st1, msg1, _, ev1) =>
      let st2 := { st1 with callback_groups := insertName st1.callback_groups msg.name }
      match get_ros_message_type msg1 with
      | Except.error e => ⟨st2, msg1, ev1, some e⟩
      | Except.ok _ =>
        ⟨{ st2 with subs := insertName st2.subs msg.name }, msg1, ev1, none⟩

/-- The readiness-polling loop shared by `create_service_client` (lines
235-236) and `create_action_client` (lines 248-249):
`while not client.wait_for_...(timeout_sec=1.0): publish_log(retryText)`.
`outcomes` is the sequence of results of the successive wait attempts; the
loop makes one attempt at a time, each with the same fixed timeout of 1.0
seconds, logs the retry text after every failed attempt, and only returns
(`true`) once an attempt succeeds. -/
def waitPoll (retryText : String) : List Bool → List Event × Bool
  | [] => ([], false)
  | b :: rest =>
    if b then ([Event.waitAttempt 1], true)
    else
      let w := waitPoll retryText rest
      (Event.waitAttempt 1 :: Event.logInfo retryText :: w.1, w.2)

/-- `create_service_client` as defined (lines 226-237): assert, create logger,
store the callback group, resolve the type, register the client, then block in
the `wait_for_service(timeout_sec=1.0)` polling loop, logging after every
failed attempt, until the service is available.  When the logger was not
stored, the retry log's `self.loggers[...]` lookup raises `KeyError` on the
first failed attempt. -/
def create_service_client (st : ConnectorState) (msg : ROSMessage)
    (outcomes : List Bool) : PRes :=
  if msg.node_type ≠ NodeType.service_client then ⟨st, msg, [], some PyErr.assertionError⟩
  else
    match create_logger st msg with
    | Except.error e => ⟨st, msg, [], some e⟩
    | Except.ok (st1, msg1, _, ev1) =>
      let st2 := { st1 with callback_groups := insertName st1.callback_groups msg.name }
      match get_ros_message_type msg1 with
      | Except.error e => ⟨st2, msg1, ev1, some e⟩
      | Except.ok _ =>
        let st3 := { st2 with service_clients := insertName st2.service_clients msg.name }
        let rt := "service " ++ msg.name ++ " not available, waiting again..."
        match effLogName msg1 with
        | Except.error e => ⟨st3, msg1, ev1, some e⟩
        | Except.ok lname =>
          if st3.loggers.contains lname then
            let w := waitPoll rt outcomes
            if w.2 then ⟨st3, msg1, ev1 ++ w.1, none⟩
            else ⟨st3, msg1, ev1 ++ w.1, some PyErr.blocked⟩
          else
            match outcomes with
            | [] => ⟨st3, msg1, ev1, some PyErr.blocked⟩
            | b :: _ =>
              if b then ⟨st3, msg1, ev1 ++ [Event.waitAttempt 1], none⟩
              else ⟨st3, msg1, ev1 ++ [Event.waitAttempt 1], some (PyErr.keyError lname)⟩

/-- `create_action_client` as defined (lines 239-250): identical shape to
`create_service_client` but registering in `action_clients` and polling
`wait_for_server(timeout_sec=1.0)` with the action retry text. -/
def create_action_client (st : ConnectorState) (msg : ROSMessage)
    (outcomes : List Bool) : PRes :=
  if msg.node_type ≠ NodeType.action_client then ⟨st, msg, [], some PyErr.assertionError⟩
  else
    match create_logger st msg with
    | Except.error e => ⟨st, msg, [], some e⟩
    | Except.ok (st1, msg1, _, ev1) =>
      let st2 := { st1 with callback_groups := insertName st1.callback_groups msg.name }
      match get_ros_message_type msg1 with
      | Except.error e => ⟨st2, msg1, ev1, some e⟩
      | Except.ok _ =>
        let st3 := { st2 with action_clients := insertName st2.action_clients msg.name }
        let rt := "action server " ++ msg.name ++ " not available, waiting again..."
        match effLogName msg1 with
        | Except.error e => ⟨st3, msg1, ev1, some e⟩
        | Except.ok lname =>
          if st3.loggers.contains lname then
            let w := waitPoll rt outcomes
            if w.2 then ⟨st3, msg1, ev1 ++ w.1, none⟩
            else ⟨st3, msg1, ev1 ++ w.1, some PyErr.blocked⟩
          else
            match outcomes with
            | [] => ⟨st3, msg1, ev1, some PyErr.blocked⟩
            | b :: _ =>
              if b then ⟨st3, msg1, ev1 ++ [Event.waitAttempt 1], none⟩
              else ⟨st3, msg1, ev1 ++ [Event.waitAttempt 1], some (PyErr.keyError lname)⟩

/-- `publish_ros_message` (lines 293-307).  Re-resolves the type (possible
`ValueError`), encodes the payload (external codec), then inside try fetches
`self.pubs.get(msg.name)` and calls `.publish` on it -- `AttributeError` on
`None` when the publisher is missing, caught by the handler -- and logs via
`self.loggers[msg.ros_log.name]`, whose lookup failures are caught by the
handler but re-raised there, since the handler performs the same lookup. -/
def publish_ros_message (st : ConnectorState) (msg : ROSMessage) : PRes :=
  match get_ros_message_type msg with
  | Except.error e => ⟨st, msg, [], some e⟩
  | Except.ok _ =>
    if st.pubs.contains msg.name then
      match effLogName msg with
      | Except.error e => ⟨st, msg, [Event.published msg.name], some e⟩
      | Except.ok lname =>
        if st.loggers.contains lname then
          ⟨st, msg,
           [Event.published msg.name, Event.logInfo ("Published message to topic: " ++ msg.name)],
           none⟩
        else ⟨st, msg, [Event.published msg.name], some (PyErr.keyError lname)⟩
    else
      match effLogName msg with
      | Except.error e => ⟨st, msg, [], some e⟩
      | Except.ok lname =>
        if st.loggers.contains lname then
          ⟨st, msg, [Event.logErr "Failed to publish message"], none⟩
        else ⟨st, msg, [], some (PyErr.keyError lname)⟩

/-- The `if self.timers_dict.get(msg.name): destroy; del` pattern (lines
416-418, 422-424, 429-431). -/
def cancelTimer (st : ConnectorState) (n : String) : ConnectorState × List Event :=
  match st.timers_dict.lookup n with
  | some _ =>
    ({ st with timers_dict := st.timers_dict.filter (fun x => x.1 != n) },
     [Event.timerDestroyed n])
  | none => (st, [])

/-- The common tail of every destroy branch:
`del self.callback_groups[msg.name]` (KeyError when absent), then
`del self.loggers[msg.ros_log.name]` (AttributeError on the default ros_log,
KeyError when absent), then
`self.publish_log(self.loggers[msg.ros_log.name], ...)` -- which looks up the
logger entry that was *just deleted*, so the closing log always raises
`KeyError` after the deletions have taken effect. -/
def destroyChainTail (st : ConnectorState) (msg : ROSMessage) : PRes :=
  if st.callback_groups.contains msg.name then
    let st1 := { st with callback_groups := st.callback_groups.erase msg.name }
    match effLogName msg with
    | Except.error e => ⟨st1, msg, [], some e⟩
    | Except.ok lname =>
      if st1.loggers.contains lname then
        ⟨{ st1 with loggers := st1.loggers.erase lname }, msg, [],
         some (PyErr.keyError lname)⟩
      else ⟨st1, msg, [], some (PyErr.keyError lname)⟩
  else ⟨st, msg, [], some (PyErr.keyError msg.name)⟩

/-- The publisher destroy branch (lines 428-436): cancel any timer, then
`self.pubs[msg.name].destroy()` -- `KeyError` when no such publisher exists --
then delete the publisher entry and run the common destroy tail. -/
def publisherDestroy (st : ConnectorState) (msg : ROSMessage) : PRes :=
  let ct := cancelTimer st msg.name
  if ct.1.pubs.contains msg.name then
    PRes.withEventsBefore ct.2
      (destroyChainTail { ct.1 with pubs := ct.1.pubs.erase msg.name } msg)
  else ⟨ct.1, msg, ct.2, some (PyErr.keyError msg.name)⟩

/-- The publisher case with an existing publisher and a non-destroy payload
(lines 414-427): `timer_period == 0` cancels any timer and publishes once
(logging twice on success); a positive period tears down any existing timer
and creates a new one with the new period, whose callback captures
`self.callback_groups[msg.name]` -- a `KeyError` when that entry is absent. -/
def publisherExisting (st : ConnectorState) (msg : ROSMessage) : PRes :=
  if msg.timer_period = 0 then
    let ct := cancelTimer st msg.name
    PRes.withEventsBefore ct.2
      ((publish_ros_message ct.1 msg).andThen (fun st2 msg2 =>
        publishLogAt st2 msg2 ("Published message to topic: " ++ msg.name)))
  else
    let ct := cancelTimer st msg.name
    if ct.1.callback_groups.contains msg.name then
      ⟨{ ct.1 with timers_dict := setTimer ct.1.timers_dict msg.name msg.timer_period },
       msg, ct.2 ++ [Event.timerCreated msg.name msg.timer_period], none⟩
    else ⟨ct.1, msg, ct.2, some (PyErr.keyError msg.name)⟩

/-- The `case NodeType.PUBLISHER` branch of `process` (lines 407-436).  The
if/elif chain evaluates `self.pubs.get(msg.name)` and, when needed,
`msg.msg.lower() == 'destroy'` with Python's short-circuiting, so the sentinel
comparison (which raises `AttributeError` on a dict payload) is reached
whenever the guard needs it. -/
def publisherBranch (st : ConnectorState) (msg : ROSMessage) : PRes :=
  let pubExists := st.pubs.contains msg.name
  let cond1 : Except PyErr Bool :=
    if pubExists then Except.ok false
    else
      match sentinelCheck msg "destroy" with
      | Except.error e => Except.error e
      | Except.ok d => Except.ok (!d)
  match cond1 with
  | Except.error e => ⟨st, msg, [], some e⟩
  | Except.ok true =>
    (create_publisher st msg).andThen (fun st1 msg1 =>
      if msg.timer_period = 0 then
        (publish_ros_message st1 msg1).andThen (fun st2 msg2 =>
          publishLogAt st2 msg2 ("Published message to topic: " ++ msg.name))
      else ⟨st1, msg1, [], none⟩)
  | Except.ok false =>
    let cond2 : Except PyErr Bool :=
      if pubExists then
        match sentinelCheck msg "destroy" with
        | Except.error e => Except.error e
        | Except.ok d => Except.ok (!d)
      else Except.ok false
    match cond2 with
    | Except.error e => ⟨st, msg, [], some e⟩
    | Except.ok true => publisherExisting st msg
    | Except.ok false =>
      match sentinelCheck msg "destroy" with
      | Except.error e => ⟨st, msg, [], some e⟩
      | Except.ok true => publisherDestroy st msg
      | Except.ok false => ⟨st, msg, [], none⟩

/-- The subscriber destroy tail (lines 441-446): the subscriber is known to be
present (the preceding `if` would have raised otherwise); destroy and delete
it, then the common destroy tail. -/
def subscriberDestroy (st : ConnectorState) (msg : ROSMessage) : PRes :=
  destroyChainTail { st with subs := st.subs.erase msg.name } msg

/-- The `case NodeType.SUBSCRIBER` branch (lines 438-446).  A missing
subscriber triggers `self.create_subscriber(msg, msg_class)`, but
`create_subscriber` is defined with signature `(self, msg)`, so the call
raises `TypeError` for the extra positional argument.  Otherwise the sentinel
comparison runs (raising `AttributeError` on a dict payload) and a matched
destroy sentinel runs the destroy chain. -/
def subscriberBranch (st : ConnectorState) (msg : ROSMessage) : PRes :=
  if st.subs.contains msg.name then
    match sentinelCheck msg "destroy" with
    | Except.error e => ⟨st, msg, [], some e⟩
    | Except.ok true => subscriberDestroy st msg
    | Except.ok false => ⟨st, msg, [], none⟩
  else
    ⟨st, msg, [],
     some (PyErr.typeError "create_subscriber takes 2 positional arguments but 3 were given")⟩

/-- The service-client destroy tail (lines 452-457): client known present;
destroy and delete it, then the common destroy tail. -/
def serviceDestroy (st : ConnectorState) (msg : ROSMessage) : PRes :=
  destroyChainTail { st with service_clients := st.service_clients.erase msg.name } msg

/-- The `case NodeType.SERVICE_CLIENT` branch (lines 448-457).  A missing
client triggers `self.create_service_client(msg, msg_class)` -- `TypeError`
for the extra positional argument, so no request is ever sent; with an
existing client the destroy sentinel is evaluated. -/
def serviceBranch (st : ConnectorState) (msg : ROSMessage) : PRes :=
  if st.service_clients.contains msg.name then
    match sentinelCheck msg "destroy" with
    | Except.error e => ⟨st, msg, [], some e⟩
    | Except.ok true => serviceDestroy st msg
    | Except.ok false => ⟨st, msg, [], none⟩
  else
    ⟨st, msg, [],
     some (PyErr.typeError "create_service_client takes 2 positional arguments but 3 were given")⟩

/-- The action-client destroy branch (lines 467-473):
`self.action_clients[msg.name].destroy()` raises `KeyError` when absent;
otherwise delete the client, delete the callback group and logger entries,
then `del self.goal_handles[msg.name]` (`KeyError` when no goal was ever
recorded) and finally the closing log looks up the just-deleted logger. -/
def actionDestroy (st : ConnectorState) (msg : ROSMessage) : PRes :=
  if st.action_clients.contains msg.name then
    let st1 := { st with action_clients := st.action_clients.erase msg.name }
    if st1.callback_groups.contains msg.name then
      let st2 := { st1 with callback_groups := st1.callback_groups.erase msg.name }
      match effLogName msg with
      | Except.error e => ⟨st2, msg, [], some e⟩
      | Except.ok lname =>
        if st2.loggers.contains lname then
          let st3 := { st2 with loggers := st2.loggers.erase lname }
          if st3.goal_handles.contains msg.name then
            ⟨{ st3 with goal_handles := st3.goal_handles.erase msg.name }, msg, [],
             some (PyErr.keyError lname)⟩
          else ⟨st3, msg, [], some (PyErr.keyError msg.name)⟩
        else ⟨st2, msg, [], some (PyErr.keyError lname)⟩
    else ⟨st1, msg, [], some (PyErr.keyError msg.name)⟩
  else ⟨st, msg, [], some (PyErr.keyError msg.name)⟩

/-- The `case NodeType.ACTION_CLIENT` branch (lines 459-473).  The first guard
`not get(name) and not lower()=='cancel' and not lower()=='destroy'`
short-circuits: with an existing client the sentinel is not evaluated there,
with a missing client it is (raising `AttributeError` on a dict payload).  A
true guard calls `self.create_action_client(msg, msg_class)` -- `TypeError`
for the extra positional argument.  The cancel elif fetches
`self.goal_handles[msg.name]` (`KeyError` when no goal handle is recorded)
and then logs; the destroy elif runs the action destroy chain. -/
def actionBranch (st : ConnectorState) (msg : ROSMessage) : PRes :=
  let clientExists := st.action_clients.contains msg.name
  let cond1 : Except PyErr Bool :=
    if clientExists then Except.ok false
    else
      match sentinelCheck msg "cancel" with
      | Except.error e => Except.error e
      | Except.ok true => Except.ok false
      | Except.ok false =>
        match sentinelCheck msg "destroy" with
        | Except.error e => Except.error e
        | Except.ok d => Except.ok (!d)
  match cond1 with
  | Except.error e => ⟨st, msg, [], some e⟩
  | Except.ok true =>
    ⟨st, msg, [],
     some (PyErr.typeError "create_action_client takes 2 positional arguments but 3 were given")⟩
  | Except.ok false =>
    match sentinelCheck msg "cancel" with
    | Except.error e => ⟨st, msg, [], some e⟩
    | Except.ok true =>
      if st.goal_handles.contains msg.name then
        publishLogAt st msg ("Goal canceled for action server: " ++ msg.name)
      else ⟨st, msg, [], some (PyErr.keyError msg.name)⟩
    | Except.ok false =>
      match sentinelCheck msg "destroy" with
      | Except.error e => ⟨st, msg, [], some e⟩
      | Except.ok true => actionDestroy st msg
      | Except.ok false => ⟨st, msg, [], none⟩

/-- Result of one `process` call: the registry state as left behind, the
emitted events, and the escaped exception, if any. -/
structure ProcResult where
  st : ConnectorState
  events : List Event
  err : Option PyErr
deriving DecidableEq, Repr

/-- `ROS2Connector.process` (lines 394-476).  Validation failure makes
`get_ros_msg_from_json` return `False`, and the next line feeds that `False`
to `get_ros_message_type`, whose `ros_msg.msg_type` access raises
`AttributeError`.  Otherwise the type identifier is split (possible
`ValueError`), the payload is pre-encoded by the external codec, and the code
executes `match msg_type` -- the THIRD SEGMENT of the type identifier, not
`msg.node_type` -- against the four `NodeType` str-enum values, so a segment
that is not literally "publisher", "subscriber", "service_client" or
"action_client" falls to the `case _` branch, which logs
`Invalid ROS2 node type: {msg.node_type}`. -/
def process (st : ConnectorState) (raw : RawCommand) : ProcResult :=
  match get_ros_msg_from_json raw with
  | none =>
    ⟨st, [], some (PyErr.attributeError "bool object has no attribute msg_type")⟩
  | some msg =>
    match get_ros_message_type msg with
    | Except.error e => ⟨st, [], some e⟩
    | Except.ok tyname =>
      let r :=
        if tyname = "publisher" then publisherBranch st msg
        else if tyname = "subscriber" then subscriberBranch st msg
        else if tyname = "service_client" then serviceBranch st msg
        else if tyname = "action_client" then actionBranch st msg
        else ⟨st, msg, [Event.logInvalidNodeType msg.node_type], none⟩
      ⟨r.st, r.events, r.err⟩

/-- Outcome of one iteration of the `while not self.stop_flag` loop in
`ROS2Connector.run` (lines 479-495). -/
inductive LoopStep where
  | continues (st : ConnectorState) (events : List Event)
  | crashed (st : ConnectorState) (events : List Event) (e : PyErr)
deriving DecidableEq, Repr

/-- One iteration of `run`'s loop.  `Plugin.process_inputs` is not in src.
Modelled from the spec: the Dispatch Loop is a "single-consumer loop draining
an inbound command queue", validating and routing each command -- modelled as
dequeuing one raw command and calling `process`, with no exception handling of
its own.  When `process` raises, `run`'s `except` handler evaluates
`traceback.format_exc()`, but the module never imports `traceback`, so the
handler itself raises `NameError` and the loop thread terminates. -/
def runStep (st : ConnectorState) (raw : RawCommand) : LoopStep :=
  let r := process st raw
  match r.err with
  | none => LoopStep.continues r.st r.events
  | some _ => LoopStep.crashed r.st r.events (PyErr.nameError "name traceback is not defined")

/-- The command loop over a queue of raw commands: processes commands in order
until the queue is empty or an iteration crashes; a crash abandons the
remaining commands. -/
def runLoop (st : ConnectorState) : List RawCommand → ConnectorState × List Event × Option PyErr
  | [] => (st, [], none)
  | raw :: rest =>
    match runStep st raw with
    | LoopStep.continues st' ev =>
      let r := runLoop st' rest
      (r.1, ev ++ r.2.1, r.2.2)
    | LoopStep.crashed st' ev e => (st', ev, some e)

/-- Number of ROS publishes among the events. -/
def countPublished (evs : List Event) : Nat :=
  evs.countP (fun e => match e with | Event.published _ => true | _ => false)

/-- Number of occurrences of a given info-log text among the events. -/
def countLogText (t : String) (evs : List Event) : Nat :=
  evs.countP (fun e => decide (e = Event.logInfo t))

/-! Concrete commands, messages and registry states used to evaluate the
behaviour of the connector on explicit inputs. -/

/-- A well-formed `ROSLog` descriptor for the `chatter` examples. -/
def chatterLog : ROSLog := ⟨some "chatter_log", some LogLevel.INFO, "chatter logger created"⟩

/-- The spec's canonical publish-once command:
`{node_type: publisher, msg_type: "std_msgs/msg/String", name: "chatter",
timer_period: 0, msg: {"data": "hello"}}` with an explicit `ros_log`. -/
def pubCmd : RawCommand :=
  ⟨"publisher", "std_msgs/msg/String", "chatter", some 0,
   PyVal.dict [("data", "hello")], some chatterLog⟩

/-- The same publisher command but with a type identifier whose third segment
is literally "publisher", so that `process`'s match statement routes it into
the publisher branch. -/
def pubCmdRouted : RawCommand :=
  ⟨"publisher", "demo/msg/publisher", "chatter", some 0,
   PyVal.dict [("data", "hello")], some chatterLog⟩

/-- A command with the malformed type identifier "badformat" (one segment
instead of three). -/
def badTypeCmd : RawCommand :=
  ⟨"publisher", "badformat", "chatter", some 0,
   PyVal.dict [("data", "hello")], some chatterLog⟩

/-- Destroy-sentinel commands: the payload is the JSON string "destroy" (in
its three case variants) where the schema requires a dict. -/
def destroyRawLower : RawCommand :=
  ⟨"publisher", "std_msgs/msg/String", "chatter", some 0, PyVal.str "destroy", some chatterLog⟩

/-- Destroy-sentinel command, all-caps variant. -/
def destroyRawUpper : RawCommand :=
  ⟨"publisher", "std_msgs/msg/String", "chatter", some 0, PyVal.str "DESTROY", some chatterLog⟩

/-- Destroy-sentinel command, capitalized variant. -/
def destroyRawMixed : RawCommand :=
  ⟨"publisher", "std_msgs/msg/String", "chatter", some 0, PyVal.str "Destroy", some chatterLog⟩

/-- Cancel-sentinel command for an action client, all-caps variant. -/
def cancelRawUpper : RawCommand :=
  ⟨"action_client", "example_interfaces/action/Fibonacci", "fib", some 0,
   PyVal.str "CANCEL", some ⟨some "fib_log", some LogLevel.INFO, "cancel logger"⟩⟩

/-- Destroy-sentinel command for the never-created publisher "ghost". -/
def ghostDestroyRaw : RawCommand :=
  ⟨"publisher", "demo/msg/publisher", "ghost", some 0, PyVal.str "destroy",
   some ⟨some "ghost_log", some LogLevel.INFO, "ghost logger"⟩⟩

/-- A state holding one publisher "chatter" with its callback group and
logger. -/
def stWithPub : ConnectorState :=
  ⟨["chatter"], [], [], [], ["chatter_log"], [], ["chatter"], []⟩

/-- Like `stWithPub` but with a recurring timer of period 1 for "chatter". -/
def stPubTimer : ConnectorState :=
  ⟨["chatter"], [], [], [], ["chatter_log"], [("chatter", 1)], ["chatter"], []⟩

/-- A state where a publisher and a subscriber share the name "chatter",
together with the name-keyed callback group and logger entries they use. -/
def stShared : ConnectorState :=
  ⟨["chatter"], ["chatter"], [], [], ["chatter_log"], [], ["chatter"], []⟩

/-- A validated-message value whose payload is the string "destroy" and whose
type identifier routes to the publisher branch (such a value cannot be
produced by `validate`, which rejects string payloads; it exercises the
branch code directly). -/
def destroyMsgPub : ROSMessage :=
  ⟨NodeType.publisher, "demo/msg/publisher", "chatter", 0, PyVal.str "destroy",
   RosLogField.roslog chatterLog⟩

/-- A destroy-payload message for the publisher name "ghost". -/
def ghostDestroyMsg : ROSMessage :=
  ⟨NodeType.publisher, "demo/msg/publisher", "ghost", 0, PyVal.str "destroy",
   RosLogField.roslog ⟨some "ghost_log", some LogLevel.INFO, "ghost logger"⟩⟩

/-- A destroy-payload publisher message for an arbitrary name. -/
def mkDestroyMsg (n : String) : ROSMessage :=
  ⟨NodeType.publisher, "demo/msg/publisher", n, 0, PyVal.str "destroy",
   RosLogField.roslog ⟨some (n ++ "_log"), some LogLevel.INFO, "destroy logger"⟩⟩

/-- A cancel-payload action-client message for an arbitrary name. -/
def mkCancelMsg (n : String) : ROSMessage :=
  ⟨NodeType.action_client, "example_interfaces/action/Fibonacci", n, 0, PyVal.str "cancel",
   RosLogField.roslog ⟨some (n ++ "_log"), some LogLevel.INFO, "cancel logger"⟩⟩

/-- A valid service-client creation message. -/
def svcMsg : ROSMessage :=
  ⟨NodeType.service_client, "example_interfaces/srv/AddTwoInts", "adder", 0,
   PyVal.dict [("a", "1")], RosLogField.roslog ⟨some "adder_log", some LogLevel.INFO, "svc logger"⟩⟩

/-- A valid action-client creation message. -/
def actMsg : ROSMessage :=
  ⟨NodeType.action_client, "example_interfaces/action/Fibonacci", "fib", 0,
   PyVal.dict [("order", "5")], RosLogField.roslog ⟨some "fib_log", some LogLevel.INFO, "act logger"⟩⟩

/-- The retry text of the service readiness loop for `svcMsg`. -/
def svcRetry : String := "service adder not available, waiting again..."

/-- The retry text of the action readiness loop for `actMsg`. -/
def actRetry : String := "action server fib not available, waiting again..."

/-- The registry state produced by `create_service_client` on `svcMsg` from
the initial state, before the readiness wait resolves. -/
def stSvcAfter : ConnectorState := ⟨[], [], ["adder"], [], ["adder_log"], [], ["adder"], []⟩

/-- The registry state produced by `create_action_client` on `actMsg` from
the initial state, before the readiness wait resolves. -/
def stActAfter : ConnectorState := ⟨[], [], [], ["fib"], ["fib_log"], [], ["fib"], []⟩

/-- The canonical publisher command with the `ros_log` field omitted. -/
def rawNoLog : RawCommand :=
  ⟨"publisher", "std_msgs/msg/String", "chatter", some 0,
   PyVal.dict [("data", "hello")], none⟩

/-- The validated form of `rawNoLog`: `ros_log` holds the schema's default
value, the (unvalidated) empty string. -/
def msgNoLog : ROSMessage :=
  ⟨NodeType.publisher, "std_msgs/msg/String", "chatter", 0,
   PyVal.dict [("data", "hello")], RosLogField.defaultStr⟩

/-! Shared lemmas about validation and the dispatch branches. -/

/-- Validation only ever produces dict payloads (`msg: dict` in the schema). -/
theorem validate_msg_isDict (raw : RawCommand) (m : ROSMessage)
    (h : validate raw = some m) : ∃ es, m.msg = PyVal.dict es := by
  unfold validate at h
  split at h
  · exact absurd h (by simp)
  · split at h
    · exact absurd h (by simp)
    · split at h
      · exact absurd h (by simp)
      · rename_i es _
        exact ⟨es, by rw [← Option.some.inj h]⟩

/-- When the `ros_log` field is omitted, the validated message carries the
schema's default, the empty string. -/
theorem validate_ros_log_default (raw : RawCommand) (m : ROSMessage)
    (h1 : raw.ros_log = none) (h2 : validate raw = some m) :
    m.ros_log = RosLogField.defaultStr := by
  unfold validate at h2
  split at h2
  · exact absurd h2 (by simp)
  · split at h2
    · exact absurd h2 (by simp)
    · split at h2
      · exact absurd h2 (by simp)
      · rw [h1] at h2
        rw [← Option.some.inj h2]

/-- On a dict payload, the sentinel comparison `msg.msg.lower() == s` raises
`AttributeError`. -/
theorem sentinelCheck_dict (m : ROSMessage) (es : List (String × String)) (s : String)
    (h : m.msg = PyVal.dict es) :
    sentinelCheck m s =
      Except.error (PyErr.attributeError "dict object has no attribute lower") := by
  unfold sentinelCheck pyLower
  rw [h]

/-- On a dict payload the publisher branch always raises `AttributeError` at
the sentinel comparison, mutating nothing and emitting nothing. -/
theorem publisherBranch_dict (st : ConnectorState) (m : ROSMessage)
    (es : List (String × String)) (h : m.msg = PyVal.dict es) :
    publisherBranch st m =
      ⟨st, m, [], some (PyErr.attributeError "dict object has no attribute lower")⟩ := by
  unfold publisherBranch
  rw [sentinelCheck_dict m es "destroy" h]
  by_cases hp : m.name ∈ st.pubs <;> simp [hp]

/-- On a dict payload the subscriber branch raises (`TypeError` at the
miscalled `create_subscriber`, or `AttributeError` at the sentinel), mutating
nothing and emitting nothing. -/
theorem subscriberBranch_dict (st : ConnectorState) (m : ROSMessage)
    (es : List (String × String)) (h : m.msg = PyVal.dict es) :
    (subscriberBranch st m).st = st ∧ (subscriberBranch st m).events = [] ∧
    (subscriberBranch st m).err ≠ none := by
  unfold subscriberBranch
  rw [sentinelCheck_dict m es "destroy" h]
  by_cases hs : m.name ∈ st.subs <;> simp [hs]

/-- On a dict payload the service branch raises, mutating nothing and
emitting nothing. -/
theorem serviceBranch_dict (st : ConnectorState) (m : ROSMessage)
    (es : List (String × String)) (h : m.msg = PyVal.dict es) :
    (serviceBranch st m).st = st ∧ (serviceBranch st m).events = [] ∧
    (serviceBranch st m).err ≠ none := by
  unfold serviceBranch
  rw [sentinelCheck_dict m es "destroy" h]
  by_cases hs : m.name ∈ st.service_clients <;> simp [hs]

/-- On a dict payload the action branch always raises `AttributeError` at a
sentinel comparison, mutating nothing and emitting nothing. -/
theorem actionBranch_dict (st : ConnectorState) (m : ROSMessage)
    (es : List (String × String)) (h : m.msg = PyVal.dict es) :
    actionBranch st m =
      ⟨st, m, [], some (PyErr.attributeError "dict object has no attribute lower")⟩ := by
  unfold actionBranch
  rw [sentinelCheck_dict m es "cancel" h, sentinelCheck_dict m es "destroy" h]
  by_cases hc : m.name ∈ st.action_clients <;> simp [hc]

/-- Processing never mutates the registry: every schema-valid command either
falls to the invalid-node-type branch (the state is returned untouched) or
raises inside its kind branch before any mutation, because the sentinel
comparison `.lower()` on the (always-dict) payload, the misnamed
`callback_group` attribute, and the miscalled create functions all raise
first. -/
theorem process_st_eq (st : ConnectorState) (raw : RawCommand) :
    (process st raw).st = st := by
  unfold process
  split
  · rfl
  · rename_i m hv
    obtain ⟨es, hdict⟩ := validate_msg_isDict raw m hv
    split
    · rfl
    · rename_i ty ht
      by_cases h1 : ty = "publisher"
      · simp [h1, publisherBranch_dict st m es hdict]
      · by_cases h2 : ty = "subscriber"
        · simp [h1, h2, (subscriberBranch_dict st m es hdict).1]
        · by_cases h3 : ty = "service_client"
          · simp [h1, h2, h3, (serviceBranch_dict st m es hdict).1]
          · by_cases h4 : ty = "action_client"
            · simp [h1, h2, h3, h4, actionBranch_dict st m es hdict]
            · simp [h1, h2, h3, h4]

/-! Claim theorems. -/

/-- C1.  The claim says the dispatch loop selects the handling branch by the
command's `node_type` (together with the payload sentinel), so a schema-valid
publisher command is routed to the publisher branch and never to the
invalid-node-type fallback.  In the code, `process` matches on `msg_type` --
the third segment of the type identifier returned by `get_ros_message_type`
-- not on `msg.node_type`: the canonical schema-valid publisher command with
`msg_type = "std_msgs/msg/String"` (third segment "String") falls to the
`case _` fallback, which logs "Invalid ROS2 node type", for every starting
state. -/
theorem c1_routing_matches_type_name_not_node_type :
    (validate pubCmd).isSome = true ∧
    process initState pubCmd =
      ⟨initState, [Event.logInvalidNodeType NodeType.publisher], none⟩ ∧
    ∀ st : ConnectorState,
      (process st pubCmd).events = [Event.logInvalidNodeType NodeType.publisher] ∧
      (process st pubCmd).err = none :=
  ⟨rfl, rfl, fun _ => ⟨rfl, rfl⟩⟩

/-- C2.  The claim says processing the same non-destroy creation command
twice yields exactly one native endpoint and one registry entry.  In the
code, zero publishers exist after processing the canonical publisher command
twice (the command is routed to the invalid-node-type fallback); even a
command whose type-identifier third segment routes it into the publisher
branch raises `AttributeError` at the dict-payload sentinel check before
anything is registered; and in general no `process` call ever changes the
`pubs` registry. -/
theorem c2_creation_never_registers_endpoint :
    (process (process initState pubCmd).st pubCmd).st.pubs.length = 0 ∧
    (process initState pubCmdRouted).err =
      some (PyErr.attributeError "dict object has no attribute lower") ∧
    (process initState pubCmdRouted).st.pubs.length = 0 ∧
    ∀ (st : ConnectorState) (raw : RawCommand), (process st raw).st.pubs = st.pubs := by
  refine ⟨rfl, rfl, rfl, fun st raw => ?_⟩
  rw [process_st_eq]

/-- C3.  The claim says a destroy command for `(kind, name)` removes the
registry entry so a later lookup returns absent.  In the code, a
destroy-sentinel command cannot pass schema validation (the `msg` field must
be a dict, and the payload is the string "destroy"), so `process` feeds the
`False` returned by `get_ros_msg_from_json` into `get_ros_message_type` and
raises `AttributeError`; the publisher registry still contains "chatter"
afterwards. -/
theorem c3_destroy_command_never_removes_entry :
    validate destroyRawLower = none ∧
    process stWithPub destroyRawLower =
      ⟨stWithPub, [], some (PyErr.attributeError "bool object has no attribute msg_type")⟩ ∧
    stWithPub.pubs.contains "chatter" = true :=
  ⟨rfl, rfl, rfl⟩

/-- C5.  The claim says a publisher command with `timer_period == 0` on an
existing publisher cancels any existing timer and performs exactly one
immediate publish.  In the code, from a state holding publisher "chatter"
with a live timer of period 1, the branch-routed publisher command with
`timer_period = 0` raises `AttributeError` at the dict-payload sentinel check
(`msg.msg.lower()`): the timer entry survives and nothing is published. -/
theorem c5_timer_zero_neither_cancels_nor_publishes :
    stPubTimer.pubs.contains "chatter" = true ∧
    process stPubTimer pubCmdRouted =
      ⟨stPubTimer, [], some (PyErr.attributeError "dict object has no attribute lower")⟩ ∧
    (process stPubTimer pubCmdRouted).st.timers_dict.lookup "chatter" = some 1 ∧
    countPublished (process stPubTimer pubCmdRouted).events = 0 :=
  ⟨rfl, rfl, rfl, rfl⟩

/-- C6.  The claim says a command whose type resolution fails (such as
`type_id = "badformat"`) is logged and dropped and the loop continues.  In
the code, the malformed identifier makes the three-name unpack in
`get_ros_message_type` raise `ValueError`, which escapes `process`; `run`'s
exception handler then evaluates `traceback.format_exc()` with `traceback`
never imported, so the handler raises `NameError` and the loop terminates,
abandoning the queued second command (whereas two well-formed commands are
both processed). -/
theorem c6_bad_type_id_crashes_the_loop :
    (validate badTypeCmd).isSome = true ∧
    process initState badTypeCmd =
      ⟨initState, [], some (PyErr.valueError "unpack expected 3 values")⟩ ∧
    runLoop initState [badTypeCmd, pubCmd] =
      (initState, [], some (PyErr.nameError "name traceback is not defined")) ∧
    runLoop initState [pubCmd, pubCmd] =
      (initState,
       [Event.logInvalidNodeType NodeType.publisher, Event.logInvalidNodeType NodeType.publisher],
       none) :=
  ⟨rfl, rfl, rfl, rfl⟩

/-- C7.  The claim says the destroy/cancel payload sentinels are
case-insensitive and, when matched, short-circuit normal processing.  In the
code no sentinel can ever match: every case variant of the string payload is
rejected by schema validation (`msg` must be a dict), after which `process`
raises `AttributeError` -- identically for "DESTROY", "Destroy" and
"destroy", and likewise for "CANCEL" -- destroying nothing; and for a
schema-valid dict payload the case-normalization `msg.msg.lower()` itself
raises `AttributeError`. -/
theorem c7_sentinels_never_match :
    validate destroyRawUpper = none ∧
    validate destroyRawMixed = none ∧
    validate destroyRawLower = none ∧
    validate cancelRawUpper = none ∧
    process stWithPub destroyRawUpper =
      ⟨stWithPub, [], some (PyErr.attributeError "bool object has no attribute msg_type")⟩ ∧
    process stWithPub destroyRawMixed = process stWithPub destroyRawUpper ∧
    process stWithPub destroyRawLower = process stWithPub destroyRawUpper ∧
    (process initState cancelRawUpper).err =
      some (PyErr.attributeError "bool object has no attribute msg_type") ∧
    stWithPub.pubs.contains "chatter" = true ∧
    pyLower (PyVal.dict [("data", "hello")]) =
      Except.error (PyErr.attributeError "dict object has no attribute lower") :=
  ⟨rfl, rfl, rfl, rfl, rfl, rfl, rfl, rfl, rfl, rfl⟩

/-! Helper lemmas for the string-payload sentinel paths. -/

/-- With a literal "destroy" string payload, the publisher branch reduces to
its destroy branch (the two guard conditions both evaluate to false
regardless of whether the publisher exists). -/
theorem publisherBranch_strDestroy (st : ConnectorState) (m : ROSMessage)
    (h : m.msg = PyVal.str "destroy") :
    publisherBranch st m = publisherDestroy st m := by
  have hs : sentinelCheck m "destroy" = Except.ok true := by
    unfold sentinelCheck pyLower
    rw [h]
    rfl
  unfold publisherBranch
  rw [hs]
  simp only [Bool.not_true, ite_self]

/-- Destroying a publisher that is not registered raises `KeyError` at
`self.pubs[msg.name]` (after the timer check found no timer), leaving the
state unchanged and emitting nothing. -/
theorem publisherDestroy_missing (st : ConnectorState) (m : ROSMessage)
    (h1 : m.name ∉ st.pubs) (h2 : st.timers_dict.lookup m.name = none) :
    publisherDestroy st m = ⟨st, m, [], some (PyErr.keyError m.name)⟩ := by
  unfold publisherDestroy cancelTimer
  rw [h2]
  simp [h1]

/-- With a literal "cancel" string payload and no recorded goal handle, the
action branch raises `KeyError` at `self.goal_handles[msg.name]`, leaving the
state unchanged and emitting nothing. -/
theorem actionBranch_strCancel_noHandle (st : ConnectorState) (m : ROSMessage)
    (hmsg : m.msg = PyVal.str "cancel") (h : m.name ∉ st.goal_handles) :
    actionBranch st m = ⟨st, m, [], some (PyErr.keyError m.name)⟩ := by
  have hc : sentinelCheck m "cancel" = Except.ok true := by
    unfold sentinelCheck pyLower
    rw [hmsg]
    rfl
  have hd : sentinelCheck m "destroy" = Except.ok false := by
    unfold sentinelCheck pyLower
    rw [hmsg]
    rfl
  unfold actionBranch
  rw [hc, hd]
  simp [h]

/-- A raw command whose payload is the string "destroy" always fails schema
validation (`msg` must be a dict), so `process` raises `AttributeError` on
the `False` returned by validation, leaving the state unchanged. -/
theorem process_strDestroy (st : ConnectorState) (raw : RawCommand)
    (hmsg : raw.msg = PyVal.str "destroy") :
    process st raw =
      ⟨st, [], some (PyErr.attributeError "bool object has no attribute msg_type")⟩ := by
  have hv : validate raw = none := by
    unfold validate
    rw [hmsg]
    cases hp : parseNodeType raw.node_type <;> simp [hp]
  unfold process get_ros_msg_from_json
  rw [hv]

/-- C4 counterexample.  The claim says destroying a missing endpoint is "a
logged no-op warning that raises no error".  Destroying the never-created
publisher "ghost" raises (`KeyError "ghost"` when the destroy branch is
exercised directly, `AttributeError` through `process` because the string
sentinel payload fails schema validation) and emits no warning. -/
theorem c4_counterexample :
    (publisherBranch initState ghostDestroyMsg).err = some (PyErr.keyError "ghost") ∧
    (publisherBranch initState ghostDestroyMsg).events = [] ∧
    (publisherBranch initState ghostDestroyMsg).st = initState ∧
    (process initState ghostDestroyRaw).err =
      some (PyErr.attributeError "bool object has no attribute msg_type") :=
  ⟨rfl, rfl, rfl, rfl⟩

/-- C4 amended.  Processing a destroy sentinel for a missing endpoint, or a
cancel sentinel with no outstanding goal handle, is never a logged no-op
warning: the destroy branch raises `KeyError` at the missing publisher entry
and the cancel branch raises `KeyError` at the missing goal handle (both with
no warning logged and no state change), and through `process` every
string-payload destroy command fails schema validation and raises
`AttributeError` before reaching any branch. -/
theorem c4_amended_destroy_missing_raises_key_error (st st2 : ConnectorState) (n n2 : String)
    (h1 : n ∉ st.pubs) (h2 : st.timers_dict.lookup n = none)
    (h3 : n2 ∉ st2.goal_handles) :
    publisherBranch st (mkDestroyMsg n) = ⟨st, mkDestroyMsg n, [], some (PyErr.keyError n)⟩ ∧
    actionBranch st2 (mkCancelMsg n2) = ⟨st2, mkCancelMsg n2, [], some (PyErr.keyError n2)⟩ ∧
    ∀ (st3 : ConnectorState) (raw : RawCommand), raw.msg = PyVal.str "destroy" →
      process st3 raw =
        ⟨st3, [], some (PyErr.attributeError "bool object has no attribute msg_type")⟩ := by
  refine ⟨?_, ?_, fun st3 raw hmsg => process_strDestroy st3 raw hmsg⟩
  · rw [publisherBranch_strDestroy st (mkDestroyMsg n) rfl]
    exact publisherDestroy_missing st (mkDestroyMsg n) h1 h2
  · exact actionBranch_strCancel_noHandle st2 (mkCancelMsg n2) rfl h3

/-- C4 witness: the amended statement applied to the empty registry and the
names "ghost" and "fib". -/
theorem c4_amended_witness :
    ("ghost" ∉ initState.pubs ∧ initState.timers_dict.lookup "ghost" = none ∧
     "fib" ∉ initState.goal_handles) ∧
    publisherBranch initState (mkDestroyMsg "ghost") =
      ⟨initState, mkDestroyMsg "ghost", [], some (PyErr.keyError "ghost")⟩ :=
  ⟨⟨by decide, rfl, by decide⟩,
   (c4_amended_destroy_missing_raises_key_error initState initState "ghost" "fib"
      (by decide) rfl (by decide)).1⟩

/-- C8 counterexample.  The claim says destroying the endpoint of one kind
leaves the other kind's per-endpoint resources (callback group, logger)
unchanged and usable.  From a state where a publisher and a subscriber share
the name "chatter", the publisher destroy branch leaves the subscriber entry
in place but deletes the name-keyed callback-group entry and the logger entry
that the subscriber was using. -/
theorem c8_counterexample :
    (publisherBranch stShared destroyMsgPub).st.subs.contains "chatter" = true ∧
    (publisherBranch stShared destroyMsgPub).st.callback_groups.contains "chatter" = false ∧
    (publisherBranch stShared destroyMsgPub).st.loggers.contains "chatter_log" = false :=
  ⟨rfl, rfl, rfl⟩

/-- C8 amended.  Two endpoints of different kinds may share a name, and a
publisher destroy leaves the other kind's endpoint map (and the timer and
goal-handle maps) untouched; but the callback-group and logger maps are
keyed by name alone and shared across kinds, so the destroy deletes the
shared callback-group entry for that name and the shared logger entry for the
ros_log name, which a same-named endpoint of another kind was using; the
branch then ends in `KeyError` when its closing log looks up the just-deleted
logger. -/
theorem c8_amended_destroy_deletes_shared_entries (st : ConnectorState)
    (h1 : "chatter" ∈ st.pubs) (h2 : "chatter" ∈ st.callback_groups)
    (h3 : "chatter_log" ∈ st.loggers) (h4 : st.timers_dict.lookup "chatter" = none) :
    (publisherBranch st destroyMsgPub).st.subs = st.subs ∧
    (publisherBranch st destroyMsgPub).st.timers_dict = st.timers_dict ∧
    (publisherBranch st destroyMsgPub).st.goal_handles = st.goal_handles ∧
    (publisherBranch st destroyMsgPub).st.pubs = st.pubs.erase "chatter" ∧
    (publisherBranch st destroyMsgPub).st.callback_groups = st.callback_groups.erase "chatter" ∧
    (publisherBranch st destroyMsgPub).st.loggers = st.loggers.erase "chatter_log" ∧
    (publisherBranch st destroyMsgPub).events = [] ∧
    (publisherBranch st destroyMsgPub).err = some (PyErr.keyError "chatter_log") := by
  have hb : publisherBranch st destroyMsgPub = publisherDestroy st destroyMsgPub :=
    publisherBranch_strDestroy st destroyMsgPub rfl
  have hd : publisherDestroy st destroyMsgPub =
      ⟨{ st with pubs := st.pubs.erase "chatter",
                 callback_groups := st.callback_groups.erase "chatter",
                 loggers := st.loggers.erase "chatter_log" },
       destroyMsgPub, [], some (PyErr.keyError "chatter_log")⟩ := by
    have e1 : destroyMsgPub.name = "chatter" := rfl
    have e2 : effLogName destroyMsgPub = Except.ok "chatter_log" := rfl
    unfold publisherDestroy cancelTimer destroyChainTail PRes.withEventsBefore
    rw [e1, e2, h4]
    simp [h1, h2, h3]
  rw [hb, hd]
  exact ⟨rfl, rfl, rfl, rfl, rfl, rfl, rfl, rfl⟩

/-- C8 witness: the amended statement applied to the state where a publisher
and a subscriber share the name "chatter". -/
theorem c8_amended_witness :
    ("chatter" ∈ stShared.pubs ∧ "chatter" ∈ stShared.callback_groups ∧
     "chatter_log" ∈ stShared.loggers ∧ stShared.timers_dict.lookup "chatter" = none) ∧
    (publisherBranch stShared destroyMsgPub).st.subs = stShared.subs :=
  ⟨⟨by decide, by decide, by decide, rfl⟩,
   (c8_amended_destroy_deletes_shared_entries stShared (by decide) (by decide)
      (by decide) rfl).1⟩

/-! Lemmas about the readiness-polling loop. -/

/-- Every wait attempt of the polling loop uses the same fixed timeout of
1.0 seconds. -/
theorem waitPoll_attempt_timeout (txt : String) (outs : List Bool) (t : ℚ)
    (ht : Event.waitAttempt t ∈ (waitPoll txt outs).1) : t = 1 := by
  induction outs with
  | nil => simp [waitPoll] at ht
  | cons b rest ih =>
    cases b
    · simp [waitPoll] at ht
      rcases ht with h | h
      · exact h
      · exact ih h
    · simp [waitPoll] at ht
      exact ht

/-- The polling loop logs the retry text exactly once after every failed
attempt (the failed attempts are the leading `false` outcomes). -/
theorem waitPoll_retry_count (txt : String) (outs : List Bool) :
    countLogText txt (waitPoll txt outs).1 = (outs.takeWhile (fun b => !b)).length := by
  induction outs with
  | nil => rfl
  | cons b rest ih =>
    cases b
    · simp [waitPoll, countLogText, List.takeWhile_cons] at ih ⊢
      omega
    · simp [waitPoll, countLogText, List.takeWhile_cons]

/-- The polling loop returns exactly when some wait attempt succeeds: with no
successful attempt it is still blocking. -/
theorem waitPoll_returns (txt : String) (outs : List Bool) :
    (waitPoll txt outs).2 = true ↔ true ∈ outs := by
  induction outs with
  | nil => simp [waitPoll]
  | cons b rest ih =>
    cases b
    · simp [waitPoll, ih]
    · simp [waitPoll]

/-- Evaluation of `create_service_client` on the concrete `svcMsg`: the
logger is created first, then the client is registered and the readiness
poll runs; the call returns only if the poll returned. -/
theorem create_service_client_eval (outs : List Bool) :
    create_service_client initState svcMsg outs =
      if (waitPoll svcRetry outs).2 then
        ⟨stSvcAfter, svcMsg, Event.logInfo "svc logger" :: (waitPoll svcRetry outs).1, none⟩
      else
        ⟨stSvcAfter, svcMsg, Event.logInfo "svc logger" :: (waitPoll svcRetry outs).1,
         some PyErr.blocked⟩ := rfl

/-- Evaluation of `create_action_client` on the concrete `actMsg`. -/
theorem create_action_client_eval (outs : List Bool) :
    create_action_client initState actMsg outs =
      if (waitPoll actRetry outs).2 then
        ⟨stActAfter, actMsg, Event.logInfo "act logger" :: (waitPoll actRetry outs).1, none⟩
      else
        ⟨stActAfter, actMsg, Event.logInfo "act logger" :: (waitPoll actRetry outs).1,
         some PyErr.blocked⟩ := rfl

/-- C9.  Service- and action-client creation wait for the server with bounded
polling: one `wait_for_...` attempt at a time, each with the same fixed
timeout (1.0 s), a retry log after every failed attempt, and the call blocks
(does not return) until an attempt succeeds. -/
theorem c9_readiness_waits_poll_with_fixed_timeout (outs : List Bool)
    (h : true ∈ outs) :
    (create_service_client initState svcMsg outs).err = none ∧
    (create_service_client initState svcMsg outs).events =
      Event.logInfo "svc logger" :: (waitPoll svcRetry outs).1 ∧
    (create_action_client initState actMsg outs).err = none ∧
    (create_action_client initState actMsg outs).events =
      Event.logInfo "act logger" :: (waitPoll actRetry outs).1 ∧
    (∀ (txt : String) (t : ℚ), Event.waitAttempt t ∈ (waitPoll txt outs).1 → t = 1) ∧
    countLogText svcRetry (waitPoll svcRetry outs).1 =
      (outs.takeWhile (fun b => !b)).length ∧
    countLogText actRetry (waitPoll actRetry outs).1 =
      (outs.takeWhile (fun b => !b)).length ∧
    ∀ outs2 : List Bool, true ∉ outs2 →
      (create_service_client initState svcMsg outs2).err = some PyErr.blocked ∧
      (create_action_client initState actMsg outs2).err = some PyErr.blocked := by
  have hw : (waitPoll svcRetry outs).2 = true := (waitPoll_returns svcRetry outs).mpr h
  have hw2 : (waitPoll actRetry outs).2 = true := (waitPoll_returns actRetry outs).mpr h
  refine ⟨?_, ?_, ?_, ?_, fun txt t ht => waitPoll_attempt_timeout txt outs t ht,
          waitPoll_retry_count svcRetry outs, waitPoll_retry_count actRetry outs, ?_⟩
  · rw [create_service_client_eval, if_pos hw]
  · rw [create_service_client_eval, if_pos hw]
  · rw [create_action_client_eval, if_pos hw2]
  · rw [create_action_client_eval, if_pos hw2]
  · intro outs2 h2
    have hn : (waitPoll svcRetry outs2).2 = false := by
      cases hz : (waitPoll svcRetry outs2).2
      · rfl
      · exact absurd ((waitPoll_returns svcRetry outs2).mp hz) h2
    have hn2 : (waitPoll actRetry outs2).2 = false := by
      cases hz : (waitPoll actRetry outs2).2
      · rfl
      · exact absurd ((waitPoll_returns actRetry outs2).mp hz) h2
    constructor
    · rw [create_service_client_eval, if_neg (by simp [hn])]
    · rw [create_action_client_eval, if_neg (by simp [hn2])]

/-- C9 witness: the statement applied to the wait-outcome trace
`[false, true]` (one failed attempt, then the server becomes ready). -/
theorem c9_witness :
    true ∈ [false, true] ∧
    (create_service_client initState svcMsg [false, true]).err = none :=
  ⟨by decide, (c9_readiness_waits_poll_with_fixed_timeout [false, true] (by decide)).1⟩

/-- C10.  When a command omits `ros_log`, the validated message carries the
schema's default value -- the empty string, not a `ROSLog` object -- so
`create_logger`'s access to `ros_log.name` raises `AttributeError`, and all
four create functions propagate that error before registering any endpoint:
an explicit `ROSLog` object is required for a command to get past logger
creation. -/
theorem c10_omitted_ros_log_breaks_logger_creation (raw : RawCommand) (m : ROSMessage)
    (h1 : raw.ros_log = none) (h2 : validate raw = some m) :
    m.ros_log = RosLogField.defaultStr ∧
    (∀ st : ConnectorState, create_logger st m =
      Except.error (PyErr.attributeError "str object has no attribute name")) ∧
    (∀ st : ConnectorState, m.node_type = NodeType.publisher →
      create_publisher st m =
        ⟨st, m, [], some (PyErr.attributeError "str object has no attribute name")⟩) ∧
    (∀ st : ConnectorState, m.node_type = NodeType.subscriber →
      create_subscriber st m =
        ⟨st, m, [], some (PyErr.attributeError "str object has no attribute name")⟩) ∧
    (∀ (st : ConnectorState) (outs : List Bool), m.node_type = NodeType.service_client →
      create_service_client st m outs =
        ⟨st, m, [], some (PyErr.attributeError "str object has no attribute name")⟩) ∧
    (∀ (st : ConnectorState) (outs : List Bool), m.node_type = NodeType.action_client →
      create_action_client st m outs =
        ⟨st, m, [], some (PyErr.attributeError "str object has no attribute name")⟩) := by
  have hdef := validate_ros_log_default raw m h1 h2
  have hcl : ∀ st : ConnectorState, create_logger st m =
      Except.error (PyErr.attributeError "str object has no attribute name") := by
    intro st
    unfold create_logger
    rw [hdef]
  refine ⟨hdef, hcl, ?_, ?_, ?_, ?_⟩
  · intro st hnt
    unfold create_publisher
    simp [hnt, hcl st]
  · intro st hnt
    unfold create_subscriber
    simp [hnt, hcl st]
  · intro st outs hnt
    unfold create_service_client
    simp [hnt, hcl st]
  · intro st outs hnt
    unfold create_action_client
    simp [hnt, hcl st]

/-- C10 witness: the statement applied to the canonical publisher command
with `ros_log` omitted. -/
theorem c10_witness :
    rawNoLog.ros_log = none ∧ validate rawNoLog = some msgNoLog ∧
    msgNoLog.ros_log = RosLogField.defaultStr :=
  ⟨rfl, rfl, (c10_omitted_ros_log_breaks_logger_creation rawNoLog msgNoLog rfl rfl).1⟩

end RosConnector
